import Mathlib

/-!
Verification development for the go-practice authentication core.

The model below is a shallow embedding of:
  * the CSRF state store        (internal/services/state.go),
  * the in-memory session store (internal/services/session.go),
  * the JWT token service       (jwtService, GenerateTokens / Validate*Token),
  * the auth middleware         (AuthMiddleware),
  * the auth orchestrator       (internal/services/auth.go, Login / HandleCallback).

Conventions: time is Unix seconds as `Int` (Go `time.Time.After a b` becomes
`b < a`); the random values drawn from crypto/rand (state bytes, session ids,
jti values) are externalised as explicit arguments; Go maps become function
maps `String → Option _` (assignment overwrites, `delete` removes); the HMAC
signature of a JWT is modelled abstractly: a signed token records the signing
key and the declared algorithm, and signature verification succeeds exactly
when the verifier's key equals the recorded one (no collisions); network
collaborators (provider exchange, user directory) are oracle functions
supplied in an environment record.  Go string slicing `s[:10]` panics when
`len(s) < 10`; the model makes that panic an explicit outcome.
-/

namespace GoPractice

/-- User record, from `services.User` (internal/services/interfaces.go). -/
structure User where
  id : String := ""
  email : String := ""
  name : String := ""
  passwordHash : String := ""
  picture : String := ""
  isActive : Bool := true
  createdAt : Int := 0
  updatedAt : Int := 0
deriving DecidableEq

/-- JWT signing algorithms.  `GenerateTokens` always signs with HS256; the
keyfunc in the three validators accepts any HMAC method. -/
inductive SigAlg
  | HS256
  | HS384
  | HS512
  | RS256
  | algNone
deriving DecidableEq

/-- Whether the method is in the `jwt.SigningMethodHMAC` family. -/
def SigAlg.isHMAC : SigAlg → Bool
  | .HS256 => true
  | .HS384 => true
  | .HS512 => true
  | _ => false

/-- Union of the claim fields of AccessTokenClaims, IDTokenClaims and
RefreshTokenClaims (jwtService).  Parsing a payload into a narrower Go claims
struct ignores extra JSON fields and zero-fills missing ones, so one record
with defaults models all three. -/
structure JWTPayload where
  sub : String := ""
  email : String := ""
  name : String := ""
  picture : String := ""
  scope : List String := []
  tokenType : String := ""
  emailVerified : Bool := false
  authTime : Int := 0
  issuer : String := ""
  audience : List String := []
  exp : Int := 0
  iat : Int := 0
  nbf : Int := 0
  jti : String := ""
deriving DecidableEq

/-- A signed compact JWT: declared algorithm, payload, and the key the
signature was produced with (abstract HMAC model). -/
structure SignedJWT where
  alg : SigAlg
  payload : JWTPayload
  sigKey : String
deriving DecidableEq

/-- Error kinds of golang-jwt v5 parsing relevant to the model. -/
inductive JWTError
  | malformed
  | wrongMethod
  | badSignature
  | expired
  | usedBeforeIssued
  | notYetValid
deriving DecidableEq

/-- Model of `jwt.ParseWithClaims` with the keyfunc used by jwtService:
reject a non-HMAC method, verify the signature against `key`, then validate
the registered time claims (exp, iat, nbf) in golang-jwt v5 order.  A token
is invalid at the exact expiry instant (`exp ≤ now`). -/
def jwtParseWithClaims (key : String) (now : Int) (t : SignedJWT) :
    Except JWTError JWTPayload :=
  if !t.alg.isHMAC then .error .wrongMethod
  else if t.sigKey != key then .error .badSignature
  else if t.payload.exp ≤ now then .error .expired
  else if now < t.payload.iat then .error .usedBeforeIssued
  else if now < t.payload.nbf then .error .notYetValid
  else .ok t.payload

/-- The jwtService: three independent symmetric secrets (NewJWTService). -/
structure JwtService where
  accessSecret : String
  idSecret : String
  refreshSecret : String
deriving DecidableEq

/-- The token triple built by `GenerateTokens` (returned inside models.Token
as three compact strings; the model keeps them structured). -/
structure TokenTriple where
  accessToken : SignedJWT
  refreshToken : SignedJWT
  idToken : SignedJWT
deriving DecidableEq

/-- Model of `jwtService.GenerateTokens`: access/id tokens expire after 1h,
the refresh token after 30 days; each is signed HS256 with its own secret;
the three random jti values are explicit arguments. -/
def GenerateTokens (j : JwtService) (now : Int) (jtiA jtiI jtiR : String)
    (user : User) : TokenTriple :=
  { accessToken :=
      { alg := .HS256
        payload :=
          { sub := user.id, email := user.email, name := user.name
            scope := ["openid", "profile", "email"]
            issuer := "oidc-api-server", audience := ["oidc-api-client"]
            exp := now + 3600, iat := now, nbf := now, jti := jtiA }
        sigKey := j.accessSecret }
    idToken :=
      { alg := .HS256
        payload :=
          { sub := user.id, email := user.email, name := user.name
            picture := user.picture, emailVerified := true, authTime := now
            issuer := "oidc-api-server", audience := ["oidc-api-client"]
            exp := now + 3600, iat := now, nbf := now, jti := jtiI }
        sigKey := j.idSecret }
    refreshToken :=
      { alg := .HS256
        payload :=
          { sub := user.id, tokenType := "refresh"
            issuer := "oidc-api-server"
            exp := now + 2592000, iat := now, nbf := now, jti := jtiR }
        sigKey := j.refreshSecret } }

/-- Model of `jwtService.ValidateAccessToken`. -/
def ValidateAccessToken (j : JwtService) (now : Int) (t : SignedJWT) :
    Except JWTError JWTPayload :=
  jwtParseWithClaims j.accessSecret now t

/-- Model of `jwtService.ValidateIDToken`. -/
def ValidateIDToken (j : JwtService) (now : Int) (t : SignedJWT) :
    Except JWTError JWTPayload :=
  jwtParseWithClaims j.idSecret now t

/-- Model of `jwtService.ValidateRefreshToken`.  The Go code returns the
parsed claims whenever parsing succeeds and the token is valid; it contains
no check on the `token_type` claim. -/
def ValidateRefreshToken (j : JwtService) (now : Int) (t : SignedJWT) :
    Except JWTError JWTPayload :=
  jwtParseWithClaims j.refreshSecret now t

/-- Model of `jwtService.GetUserIDFromToken`: validate as access token and
project the subject. -/
def GetUserIDFromToken (j : JwtService) (now : Int) (t : SignedJWT) :
    Except JWTError String :=
  match ValidateAccessToken j now t with
  | .error e => .error e
  | .ok claims => .ok claims.sub

/-- Entry of the CSRF state store (stateEntry, internal/services/state.go). -/
structure StateEntry where
  sessionID : String
  expiresAt : Int
deriving DecidableEq

/-- The in-memory `states` map of stateService. -/
abbrev StateMap := String → Option StateEntry

/-- Model of `stateService.GenerateState`: the fresh random token is an
explicit argument; the entry is stored with `expiresAt = now + ttl`. -/
def GenerateState (m : StateMap) (ttl now : Int) (token sessionID : String) :
    StateMap :=
  fun t => if t = token then some { sessionID := sessionID, expiresAt := now + ttl } else m t

/-- Error kinds of `stateService.ValidateState`. -/
inductive StateError
  | invalidState
  | expiredState
deriving DecidableEq

/-- Model of `stateService.ValidateState`: absent token → invalid; present
but `now` past `expiresAt` (`time.Now().After`) → delete and expired;
otherwise delete (single use) and return the bound session id.  Returns the
result together with the updated map. -/
def ValidateState (m : StateMap) (now : Int) (token : String) :
    Except StateError String × StateMap :=
  match m token with
  | none => (.error .invalidState, m)
  | some entry =>
    if entry.expiresAt < now then
      (.error .expiredState, fun t => if t = token then none else m t)
    else
      (.ok entry.sessionID, fun t => if t = token then none else m t)

/-- Session record (SessionData, internal/services/session.go). -/
structure SessionData where
  sessionID : String
  userID : String
  createdAt : Int
  expiresAt : Int
  ipAddress : String
  userAgent : String
  state : String := ""
deriving DecidableEq

/-- The in-memory `sessions` map of sessionManager. -/
abbrev SessionMap := String → Option SessionData

/-- Model of `sessionManager.CreateSession`; the random session id is an
explicit argument. -/
def CreateSession (m : SessionMap) (ttl now : Int)
    (newSessionID userID ipAddress userAgent : String) :
    SessionData × SessionMap :=
  let session : SessionData :=
    { sessionID := newSessionID, userID := userID, createdAt := now
      expiresAt := now + ttl, ipAddress := ipAddress, userAgent := userAgent }
  (session, fun t => if t = newSessionID then some session else m t)

/-- Model of `sessionManager.DeleteSession`. -/
def DeleteSession (m : SessionMap) (sessionID : String) : SessionMap :=
  fun t => if t = sessionID then none else m t

/-- Model of `sessionManager.GetSession`: absent → `none`; expired → delete
and `none` (lazy expiry); the Go method's error result is always nil, so the
model returns just the optional session and the updated map. -/
def GetSession (m : SessionMap) (now : Int) (sessionID : String) :
    Option SessionData × SessionMap :=
  match m sessionID with
  | none => (none, m)
  | some s =>
    if s.expiresAt < now then (none, DeleteSession m sessionID)
    else (some s, m)

/-- Model of `sessionManager.UpdateSessionUser`: sets the user id when the
session exists, silently succeeds when it does not. -/
def UpdateSessionUser (m : SessionMap) (sessionID userID : String) : SessionMap :=
  match m sessionID with
  | none => m
  | some s => fun t => if t = sessionID then some { s with userID := userID } else m t

/-- The digit table of encoding/hex (the Go constant `hextable` is the
string "0123456789abcdef"). -/
def hextable : List Char := "0123456789abcdef".data

/-- One hex digit, `hextable[n]`. -/
def hexChar (n : Nat) : Char := hextable.getD n '0'

/-- Model of `hex.EncodeToString`: each byte becomes `hextable[b>>4]`
followed by `hextable[b&0x0f]`. -/
def hexEncode (bs : List (Fin 256)) : String :=
  ⟨bs.foldr (fun b acc => hexChar (b.val / 16) :: hexChar (b.val % 16) :: acc) []⟩

/-- The redirect URI hardcoded in `authService.Login` and reused by
`authService.HandleCallback` for the code exchange. -/
def callbackRedirectURI : String := "https://api.example.com/auth/callback"

/-- The client id hardcoded into the authorization URL by `authService.Login`. -/
def googleClientID : String :=
  "906808629445-iakp5ilfkc9ltmnk5j3o001dvvres0tn.apps.googleusercontent.com"

/-- Result of `authService.Login` (models.OIDCLoginResponse). -/
structure OIDCLoginResponse where
  authURL : String
  state : String
  sessionID : String
deriving DecidableEq

/-- Model of `authService.Login`: create an unbound session, generate a CSRF
state bound to it (`hexEncode` of 32 random bytes in the real code), then
build the provider authorization URL.  The Go code overwrites its
`redirectURI` parameter with `callbackRedirectURI` before building the URL;
the model mirrors that by shadowing the argument. -/
def Login (sessions : SessionMap) (states : StateMap)
    (sessionTTL stateTTL now : Int) (newSessionID : String)
    (stateRandom : List (Fin 256)) (redirectURI : String) :
    OIDCLoginResponse × SessionMap × StateMap :=
  let created := CreateSession sessions sessionTTL now newSessionID "" "" ""
  let state := hexEncode stateRandom
  let states' := GenerateState states stateTTL now state created.1.sessionID
  let redirectURI := callbackRedirectURI
  let authURL := "https://accounts.google.com/o/oauth2/v2/auth"
      ++ "?client_id=" ++ googleClientID
      ++ "&redirect_uri=" ++ redirectURI
      ++ "&scope=openid+profile+email"
      ++ "&response_type=code"
      ++ "&state=" ++ state
  ({ authURL := authURL, state := state, sessionID := created.1.sessionID },
   created.2, states')

/-- Identity claims extracted from the provider's ID token
(`IDTokenClaims` fields consumed by HandleCallback). -/
structure ProviderIDClaims where
  userID : String
  email : String
  name : String
  picture : String
deriving DecidableEq

/-- Provider token response fields consumed by HandleCallback
(models.Token as produced by ExchangeCodeForTokens). -/
structure ProviderToken where
  accessToken : String := ""
  refreshToken : String := ""
  idToken : String := ""
deriving DecidableEq

/-- Error returned by `authService.HandleCallback`, tagged with the step
that produced it. -/
inductive CallbackError
  | stateErr (e : StateError)
  | exchangeErr (msg : String)
  | idTokenErr (msg : String)
  | userErr (msg : String)
deriving DecidableEq

/-- Outcome of `authService.HandleCallback`.  `panicked` models the Go
runtime panic of `code[:10]` / `state[:10]` on a short string; `nilResult`
models the `return nil, nil, err` branch taken when the session is absent,
where `err` is the nil error just returned by GetSession. -/
inductive CallbackResult
  | panicked
  | failure (e : CallbackError)
  | nilResult
  | success (tokens : TokenTriple) (user : User)
deriving DecidableEq

/-- Whether a callback outcome is the success return. -/
def CallbackResult.isSuccess : CallbackResult → Bool
  | .success _ _ => true
  | _ => false

/-- Environment of `authService.HandleCallback`: the two stores, the token
service, the current time, the oracle functions for the OIDC provider
(`ExchangeCodeForTokens`, `ValidateIDToken`) and the user directory upsert
(`userService.CreateOrUpdateFromOIDC`), plus the random jti values used when
minting the local token triple. -/
structure CallbackEnv where
  states : StateMap
  sessions : SessionMap
  jwt : JwtService
  now : Int
  exchange : String → String → Except String ProviderToken
  validateIDToken : String → Except String ProviderIDClaims
  upsertUser : String → String → String → String → Except String User
  jtiA : String := "jti-a"
  jtiI : String := "jti-i"
  jtiR : String := "jti-r"

/-- Output of `authService.HandleCallback`: the returned result, the number
of user-directory calls made, and the final contents of the two stores. -/
structure CallbackOut where
  result : CallbackResult
  dirCalls : Nat
  states : StateMap
  sessions : SessionMap

/-- Model of `authService.HandleCallback`.  Steps, in source order: slice
`code[:10]` and `state[:10]` for logging (panics when either is shorter
than 10); validate the CSRF state; load the session (abort with the nil
error when absent); exchange the code with the provider; validate the
provider ID token; upsert the local user (the single user-directory call);
best-effort bind the user into the session; mint the local token triple. -/
def HandleCallback (env : CallbackEnv) (code state : String) : CallbackOut :=
  if code.length < 10 ∨ state.length < 10 then
    { result := .panicked, dirCalls := 0, states := env.states, sessions := env.sessions }
  else
    match ValidateState env.states env.now state with
    | (.error e, states') =>
      { result := .failure (.stateErr e), dirCalls := 0,
        states := states', sessions := env.sessions }
    | (.ok sessionID, states') =>
      match GetSession env.sessions env.now sessionID with
      | (none, sessions') =>
        { result := .nilResult, dirCalls := 0, states := states', sessions := sessions' }
      | (some _, sessions') =>
        match env.exchange code callbackRedirectURI with
        | .error msg =>
          { result := .failure (.exchangeErr msg), dirCalls := 0,
            states := states', sessions := sessions' }
        | .ok providerTokens =>
          match env.validateIDToken providerTokens.idToken with
          | .error msg =>
            { result := .failure (.idTokenErr msg), dirCalls := 0,
              states := states', sessions := sessions' }
          | .ok claims =>
            match env.upsertUser claims.userID claims.email claims.name claims.picture with
            | .error msg =>
              { result := .failure (.userErr msg), dirCalls := 1,
                states := states', sessions := sessions' }
            | .ok user =>
              let sessions'' := UpdateSessionUser sessions' sessionID user.id
              let tokens := GenerateTokens env.jwt env.now env.jtiA env.jtiI env.jtiR user
              { result := .success tokens user, dirCalls := 1,
                states := states', sessions := sessions'' }

/-- Boolean test: `pat` is a leading segment of `s`. -/
def hasPre : List Char → List Char → Bool
  | [], _ => true
  | _ :: _, [] => false
  | a :: ps, b :: ss => a == b && hasPre ps ss

/-- Model of `strings.HasPrefix s pre`. -/
def goHasPre (s pre : String) : Bool := hasPre pre.data s.data

/-- Model of `strings.TrimPrefix`: drops `pre` when it leads `s`, otherwise
returns `s` unchanged. -/
def goTrimPre (s pre : String) : String :=
  if goHasPre s pre then ⟨s.data.drop pre.data.length⟩ else s

/-- Outcome of the auth middleware (AuthMiddleware): each rejection branch
aborts the request with its own error body; `granted` stores the user in the
request context and continues. -/
inductive AuthOutcome
  | missingHeader
  | invalidFormat
  | emptyToken
  | invalidToken
  | userNotFound
  | accountDisabled
  | granted (user : User) (userID : String)
deriving DecidableEq

/-- Decoding of a compact JWT string into its structured form, the inverse
of serialisation.  AuthMiddleware receives the token as a header substring,
so the model takes the decoder as a parameter; a string that is not a wellformed
JWT decodes to `none` (the `malformed` parse error). -/
abbrev JWTDecoder := String → Option SignedJWT

/-- `GetUserIDFromToken` on a compact string: decode, then validate as an
access token and project the subject. -/
def GetUserIDFromTokenStr (j : JwtService) (now : Int) (decode : JWTDecoder)
    (s : String) : Except JWTError String :=
  match decode s with
  | none => .error .malformed
  | some t => GetUserIDFromToken j now t

/-- Model of `AuthMiddleware`: check the Authorization header is present,
has the `Bearer ` format and a nonempty token; validate the token via
`GetUserIDFromToken`; load the user from the directory; reject an inactive
user; otherwise grant. -/
def AuthMiddleware (j : JwtService) (now : Int) (decode : JWTDecoder)
    (getUserByID : String → Except String User) (authHeader : String) :
    AuthOutcome :=
  if authHeader = "" then .missingHeader
  else if !goHasPre authHeader "Bearer " then .invalidFormat
  else
    let token := goTrimPre authHeader "Bearer "
    if token = "" then .emptyToken
    else
      match GetUserIDFromTokenStr j now decode token with
      | .error _ => .invalidToken
      | .ok userID =>
        match getUserByID userID with
        | .error _ => .userNotFound
        | .ok user =>
          if !user.isActive then .accountDisabled
          else .granted user userID

/-- Boolean test: `pat` occurs contiguously inside `s`. -/
def hasInfixL (s pat : List Char) : Bool :=
  match s with
  | [] => hasPre pat []
  | c :: t => hasPre pat (c :: t) || hasInfixL t pat

/-- `pat` occurs as a substring of `s`. -/
def strContains (s pat : String) : Bool := hasInfixL s.data pat.data

theorem hasPre_append (pat a b : List Char) (h : hasPre pat a = true) :
    hasPre pat (a ++ b) = true := by
  induction pat generalizing a with
  | nil => simp [hasPre]
  | cons c ps ih =>
    cases a with
    | nil => simp [hasPre] at h
    | cons x xs =>
      simp [hasPre] at h ⊢
      exact ⟨h.1, ih xs h.2⟩

theorem hasInfixL_nil_pat (s : List Char) : hasInfixL s [] = true := by
  induction s with
  | nil => rfl
  | cons c t ih => simp [hasInfixL, hasPre]

theorem hasInfixL_append_left (a b pat : List Char) (h : hasInfixL a pat = true) :
    hasInfixL (a ++ b) pat = true := by
  induction a with
  | nil =>
    cases pat with
    | nil => exact hasInfixL_nil_pat b
    | cons c ps => simp [hasInfixL, hasPre] at h
  | cons x xs ih =>
    simp only [hasInfixL, Bool.or_eq_true] at h
    rcases h with h | h
    · simp only [List.cons_append, hasInfixL, Bool.or_eq_true]
      exact Or.inl (hasPre_append pat (x :: xs) b h)
    · simp only [List.cons_append, hasInfixL, Bool.or_eq_true]
      exact Or.inr (ih h)

theorem strContains_append_left (a b pat : String) (h : strContains a pat = true) :
    strContains (a ++ b) pat = true := by
  have hd : (a ++ b).data = a.data ++ b.data := rfl
  unfold strContains at h ⊢
  rw [hd]
  exact hasInfixL_append_left _ _ _ h

theorem hexChar_mem_hextable (n : Nat) : hexChar n ∈ hextable := by
  by_cases h : n < 16
  · interval_cases n <;> decide
  · have hlen : hextable.length ≤ n := by
      have h16 : hextable.length = 16 := rfl
      omega
    unfold hexChar
    rw [List.getD_eq_default _ _ hlen]
    decide

theorem hexEncode_length (bs : List (Fin 256)) :
    (hexEncode bs).length = 2 * bs.length := by
  show (bs.foldr (fun b acc => hexChar (b.val / 16) :: hexChar (b.val % 16) :: acc) []).length
      = 2 * bs.length
  induction bs with
  | nil => rfl
  | cons b t ih =>
    simp only [List.foldr, List.length_cons, List.length] at ih ⊢
    omega

theorem hexEncode_chars (bs : List (Fin 256)) :
    ∀ c ∈ (hexEncode bs).data, c ∈ hextable := by
  show ∀ c ∈ bs.foldr (fun b acc => hexChar (b.val / 16) :: hexChar (b.val % 16) :: acc) [], _
  induction bs with
  | nil => simp
  | cons b t ih =>
    intro c hc
    simp only [List.foldr, List.mem_cons] at hc
    rcases hc with h | h | h
    · rw [h]; exact hexChar_mem_hextable _
    · rw [h]; exact hexChar_mem_hextable _
    · exact ih c h

theorem jwtParse_ok (key : String) (now : Int) (t : SignedJWT)
    (halg : t.alg.isHMAC = true) (hkey : t.sigKey = key)
    (hexp : now < t.payload.exp) (hiat : t.payload.iat ≤ now)
    (hnbf : t.payload.nbf ≤ now) :
    jwtParseWithClaims key now t = .ok t.payload := by
  have h1 : ¬ t.payload.exp ≤ now := by omega
  have h2 : ¬ now < t.payload.iat := by omega
  have h3 : ¬ now < t.payload.nbf := by omega
  simp [jwtParseWithClaims, halg, hkey, h1, h2, h3]

theorem jwtParse_badSig (key : String) (now : Int) (t : SignedJWT)
    (halg : t.alg.isHMAC = true) (hkey : t.sigKey ≠ key) :
    jwtParseWithClaims key now t = .error .badSignature := by
  simp [jwtParseWithClaims, halg, bne_iff_ne, hkey]

/-- C1: a token issued by GenerateState is single use.  A first ValidateState
call made while the entry is still live succeeds and returns the bound
session id; the entry is deleted by the first ValidateState call regardless
of its outcome (success or expiry); and on any store in which the token is
absent, ValidateState returns the invalid-state error and leaves the token
absent, so every call after the first returns InvalidState. -/
theorem c1_state_single_use (m : StateMap) (ttl now t1 : Int) (tok sid : String)
    (hlive : ¬ now + ttl < t1) :
    (ValidateState (GenerateState m ttl now tok sid) t1 tok).1 = .ok sid ∧
    (∀ t' : Int, (ValidateState (GenerateState m ttl now tok sid) t' tok).2 tok = none) ∧
    (∀ (m' : StateMap) (t' : Int), m' tok = none →
      (ValidateState m' t' tok).1 = .error .invalidState ∧
      (ValidateState m' t' tok).2 tok = none) := by
  refine ⟨?_, ?_, ?_⟩
  · simp [ValidateState, GenerateState, hlive]
  · intro t'
    by_cases h : now + ttl < t'
    · simp [ValidateState, GenerateState, h]
    · simp [ValidateState, GenerateState, h]
  · intro m' t' h
    constructor <;> simp [ValidateState, h]

/-- Witness for C1 at a concrete store, token and times. -/
theorem c1_witness :
    (ValidateState (GenerateState (fun _ => none) 300 0 "state-token-a" "sess-1")
        10 "state-token-a").1 = .ok "sess-1" :=
  (c1_state_single_use (fun _ => none) 300 0 10 "state-token-a" "sess-1" (by decide)).1

/-- C7: on a stored entry whose expiry is in the past, ValidateState returns
the expired-state error and removes the entry, so a second call on the same
token returns InvalidState, not ExpiredState. -/
theorem c7_expired_state_removed (m : StateMap) (now t2 : Int) (tok : String)
    (e : StateEntry) (hm : m tok = some e) (hexp : e.expiresAt < now) :
    (ValidateState m now tok).1 = .error .expiredState ∧
    (ValidateState m now tok).2 tok = none ∧
    (ValidateState (ValidateState m now tok).2 t2 tok).1 = .error .invalidState := by
  refine ⟨?_, ?_, ?_⟩ <;> simp [ValidateState, hm, hexp]

/-- Witness for C7 at a concrete store holding an expired entry. -/
theorem c7_witness :
    (ValidateState (fun t => if t = "state-token-b"
        then some { sessionID := "sess-2", expiresAt := 5 } else none)
      10 "state-token-b").1 = .error .expiredState :=
  (c7_expired_state_removed _ 10 20 "state-token-b"
    { sessionID := "sess-2", expiresAt := 5 } rfl (by decide)).1

/-- C2: with three pairwise-distinct secrets, presenting a token of one type
to the verifier of another type fails with the signature error:
ValidateAccessToken rejects the refresh token of a generated triple and
ValidateRefreshToken rejects the access token, at every validation time
(the signature is checked before expiry). -/
theorem c2_cross_type_rejected (j : JwtService) (now t : Int) (jA jI jR : String)
    (u : User)
    (h12 : j.accessSecret ≠ j.idSecret)
    (h13 : j.accessSecret ≠ j.refreshSecret)
    (h23 : j.idSecret ≠ j.refreshSecret) :
    ValidateAccessToken j t (GenerateTokens j now jA jI jR u).refreshToken
      = .error .badSignature ∧
    ValidateRefreshToken j t (GenerateTokens j now jA jI jR u).accessToken
      = .error .badSignature := by
  constructor
  · exact jwtParse_badSig _ _ _ rfl (show j.refreshSecret ≠ j.accessSecret from h13.symm)
  · exact jwtParse_badSig _ _ _ rfl (show j.accessSecret ≠ j.refreshSecret from h13)

/-- Witness for C2 at a concrete service with distinct secrets. -/
theorem c2_witness :
    ValidateAccessToken { accessSecret := "sa", idSecret := "si", refreshSecret := "sr" } 0
        (GenerateTokens { accessSecret := "sa", idSecret := "si", refreshSecret := "sr" }
          0 "ja" "ji" "jr" { id := "u1" }).refreshToken
      = .error .badSignature :=
  (c2_cross_type_rejected
    { accessSecret := "sa", idSecret := "si", refreshSecret := "sr" } 0 0 "ja" "ji" "jr"
    { id := "u1" } (by decide) (by decide) (by decide)).1

/-- A token carrying a valid signature under the refresh secret whose
tokenType claim is "access", not "refresh". -/
def c3Token : SignedJWT :=
  { alg := .HS256
    payload := { sub := "u1", tokenType := "access", exp := 100 }
    sigKey := "sr" }

/-- The token service used by the C3 counterexample. -/
def c3Jwt : JwtService := { accessSecret := "sa", idSecret := "si", refreshSecret := "sr" }

/-- Counterexample to C3: a token signed with the refresh secret whose
tokenType is "access" (not "refresh") is accepted by ValidateRefreshToken,
which returns the claims instead of an error. -/
theorem c3_counterexample :
    c3Token.payload.tokenType ≠ "refresh" ∧
    ValidateRefreshToken c3Jwt 0 c3Token = .ok c3Token.payload := by
  exact ⟨by decide, rfl⟩

/-- C3 amended: ValidateRefreshToken performs no tokenType check; it returns
the claims for every token whose declared method is HMAC, whose signature
verifies under the refresh secret and whose time claims are valid, whatever
the tokenType claim holds. -/
theorem c3_amended_no_tokentype_check (j : JwtService) (now : Int) (t : SignedJWT)
    (halg : t.alg.isHMAC = true) (hkey : t.sigKey = j.refreshSecret)
    (hexp : now < t.payload.exp) (hiat : t.payload.iat ≤ now)
    (hnbf : t.payload.nbf ≤ now) :
    ValidateRefreshToken j now t = .ok t.payload :=
  jwtParse_ok _ _ _ halg hkey hexp hiat hnbf

/-- Witness for the amended C3 at a concrete token with tokenType "access". -/
theorem c3_witness :
    ValidateRefreshToken c3Jwt 0 c3Token = .ok c3Token.payload :=
  c3_amended_no_tokentype_check c3Jwt 0 c3Token rfl rfl (by decide) (by decide) (by decide)

/-- C8: GenerateTokens followed immediately by the three validators on the
respective tokens succeeds, and each verified claim set carries the subject
of the user passed to GenerateTokens. -/
theorem c8_issue_verify_roundtrip (j : JwtService) (now : Int) (jA jI jR : String)
    (u : User) :
    (ValidateAccessToken j now (GenerateTokens j now jA jI jR u).accessToken
        = .ok (GenerateTokens j now jA jI jR u).accessToken.payload
      ∧ (GenerateTokens j now jA jI jR u).accessToken.payload.sub = u.id) ∧
    (ValidateIDToken j now (GenerateTokens j now jA jI jR u).idToken
        = .ok (GenerateTokens j now jA jI jR u).idToken.payload
      ∧ (GenerateTokens j now jA jI jR u).idToken.payload.sub = u.id) ∧
    (ValidateRefreshToken j now (GenerateTokens j now jA jI jR u).refreshToken
        = .ok (GenerateTokens j now jA jI jR u).refreshToken.payload
      ∧ (GenerateTokens j now jA jI jR u).refreshToken.payload.sub = u.id) := by
  refine ⟨⟨?_, rfl⟩, ⟨?_, rfl⟩, ⟨?_, rfl⟩⟩
  · exact jwtParse_ok _ _ _ rfl rfl (show now < now + 3600 by omega)
      (le_refl now) (le_refl now)
  · exact jwtParse_ok _ _ _ rfl rfl (show now < now + 3600 by omega)
      (le_refl now) (le_refl now)
  · exact jwtParse_ok _ _ _ rfl rfl (show now < now + 2592000 by omega)
      (le_refl now) (le_refl now)

/-- C5: on a well-formed bearer header whose access token verifies and whose
subject resolves to an inactive user, the middleware answers with the
account-disabled error and never grants; and whenever token validation
fails, the outcome is the invalid-token error for every user directory
whatsoever, so the directory is only consulted after the token has been
verified. -/
theorem c5_inactive_user_rejected (j : JwtService) (now : Int) (decode : JWTDecoder)
    (getUser : String → Except String User) (header : String)
    (tok : SignedJWT) (p : JWTPayload) (u : User)
    (hform : goHasPre header "Bearer " = true)
    (hne : goTrimPre header "Bearer " ≠ "")
    (hdec : decode (goTrimPre header "Bearer ") = some tok)
    (hval : ValidateAccessToken j now tok = .ok p)
    (huser : getUser p.sub = .ok u)
    (hinact : u.isActive = false) :
    (AuthMiddleware j now decode getUser header = .accountDisabled ∧
      ∀ (u' : User) (uid : String),
        AuthMiddleware j now decode getUser header ≠ .granted u' uid) ∧
    (∀ (g : String → Except String User) (h' : String) (e : JWTError),
      goHasPre h' "Bearer " = true → goTrimPre h' "Bearer " ≠ "" →
      GetUserIDFromTokenStr j now decode (goTrimPre h' "Bearer ") = .error e →
      AuthMiddleware j now decode g h' = .invalidToken) := by
  have hne0 : header ≠ "" := by
    intro h
    rw [h] at hform
    exact absurd hform (by decide)
  have hmain : AuthMiddleware j now decode getUser header = .accountDisabled := by

    simp [AuthMiddleware, hne0, hform, hne, GetUserIDFromTokenStr, hdec,
      GetUserIDFromToken, hval, huser, hinact]
  refine ⟨⟨hmain, ?_⟩, ?_⟩
  · intro u' uid hcontra
    rw [hmain] at hcontra
    exact absurd hcontra (by simp)
  · intro g h' e hform' hne' hfail
    have hne0' : h' ≠ "" := by
      intro h
      rw [h] at hform'
      exact absurd hform' (by decide)
    simp [AuthMiddleware, hne0', hform', hne', hfail]

/-- Access token accepted in the C5 witness scenario. -/
def c5Token : SignedJWT :=
  { alg := .HS256, payload := { sub := "u1", exp := 100 }, sigKey := "sa" }

/-- Decoder of the C5 witness scenario: the compact string "t1" decodes to
the witness token. -/
def c5Decode : JWTDecoder := fun s => if s = "t1" then some c5Token else none

/-- User directory of the C5 witness scenario: "u1" is a deactivated user. -/
def c5GetUser : String → Except String User :=
  fun s => if s = "u1" then .ok { id := "u1", isActive := false }
           else .error "user not found"

/-- Witness for C5: a valid bearer header for an inactive user is rejected
with the account-disabled error. -/
theorem c5_witness :
    AuthMiddleware { accessSecret := "sa", idSecret := "si", refreshSecret := "sr" } 0
      c5Decode c5GetUser "Bearer t1" = .accountDisabled :=
  ((c5_inactive_user_rejected
    { accessSecret := "sa", idSecret := "si", refreshSecret := "sr" } 0
    c5Decode c5GetUser "Bearer t1" c5Token { sub := "u1", exp := 100 }
    { id := "u1", isActive := false }
    (by decide) (by decide) (by rfl) rfl rfl rfl).1).1

/-- Environment of the C4 counterexample: the state store holds a live state
bound to session "sess-gone", the session store is empty, and every provider
and directory oracle would succeed. -/
def c4Env : CallbackEnv :=
  { states := fun t => if t = "state-tok-1"
      then some { sessionID := "sess-gone", expiresAt := 1000 } else none
    sessions := fun _ => none
    jwt := { accessSecret := "sa", idSecret := "si", refreshSecret := "sr" }
    now := 0
    exchange := fun _ _ => .ok { idToken := "provider-id-token" }
    validateIDToken := fun _ =>
      .ok { userID := "sub-1", email := "a@b.com", name := "A", picture := "" }
    upsertUser := fun _ e n p => .ok { id := "u-new", email := e, name := n, picture := p } }

/-- Counterexample to C4: the state validates to a session id with no live
session, the provider exchange and the directory upsert would both succeed,
yet HandleCallback does not complete the flow: it returns the nil-error
early return (no tokens, no user, not a success) and makes zero user
directory calls. -/
theorem c4_counterexample :
    (HandleCallback c4Env "authcode-xyz" "state-tok-1").result = .nilResult ∧
    (HandleCallback c4Env "authcode-xyz" "state-tok-1").result.isSuccess = false ∧
    (HandleCallback c4Env "authcode-xyz" "state-tok-1").dirCalls = 0 :=
  ⟨rfl, rfl, rfl⟩

/-- C4 amended: when the CSRF state validates to a session id for which the
session store has no live session, HandleCallback aborts before the code
exchange: it returns nil token, nil user and the nil error just returned by
GetSession (outcome nilResult), makes no user directory call, and its result
does not depend on the provider exchange oracle at all. -/
theorem c4_amended_session_absent_aborts (env : CallbackEnv) (code st : String)
    (sid : String) (states' : StateMap) (sessions' : SessionMap)
    (hc : ¬ code.length < 10) (hs : ¬ st.length < 10)
    (hval : ValidateState env.states env.now st = (.ok sid, states'))
    (hsess : GetSession env.sessions env.now sid = (none, sessions')) :
    (HandleCallback env code st).result = .nilResult ∧
    (HandleCallback env code st).dirCalls = 0 ∧
    ∀ ex, (HandleCallback { env with exchange := ex } code st).result = .nilResult := by
  have hif : ¬ (code.length < 10 ∨ st.length < 10) := by omega
  refine ⟨?_, ?_, fun ex => ?_⟩ <;> simp [HandleCallback, hif, hval, hsess]

/-- Witness for the amended C4 in the concrete counterexample environment. -/
theorem c4_witness :
    (HandleCallback c4Env "authcode-xyz" "state-tok-1").result = .nilResult :=
  (c4_amended_session_absent_aborts c4Env "authcode-xyz" "state-tok-1" "sess-gone"
    _ _ (by decide) (by decide) rfl rfl).1

/-- C6: a failure of state validation is returned as that error with zero
user directory calls; a failure of the provider code exchange, reached with
a validated state and a live session, is returned as that error with zero
directory calls; a failure of provider ID-token validation likewise; and in
particular an unknown state yields InvalidState with zero directory calls. -/
theorem c6_failures_abort_without_directory (env : CallbackEnv) (code st : String)
    (hc : ¬ code.length < 10) (hs : ¬ st.length < 10) :
    (∀ (e : StateError) (states' : StateMap),
      ValidateState env.states env.now st = (.error e, states') →
      (HandleCallback env code st).result = .failure (.stateErr e) ∧
      (HandleCallback env code st).dirCalls = 0) ∧
    (∀ (sid : String) (states' : StateMap) (s : SessionData) (sessions' : SessionMap)
      (msg : String),
      ValidateState env.states env.now st = (.ok sid, states') →
      GetSession env.sessions env.now sid = (some s, sessions') →
      env.exchange code callbackRedirectURI = .error msg →
      (HandleCallback env code st).result = .failure (.exchangeErr msg) ∧
      (HandleCallback env code st).dirCalls = 0) ∧
    (∀ (sid : String) (states' : StateMap) (s : SessionData) (sessions' : SessionMap)
      (pt : ProviderToken) (msg : String),
      ValidateState env.states env.now st = (.ok sid, states') →
      GetSession env.sessions env.now sid = (some s, sessions') →
      env.exchange code callbackRedirectURI = .ok pt →
      env.validateIDToken pt.idToken = .error msg →
      (HandleCallback env code st).result = .failure (.idTokenErr msg) ∧
      (HandleCallback env code st).dirCalls = 0) ∧
    (env.states st = none →
      (HandleCallback env code st).result = .failure (.stateErr .invalidState) ∧
      (HandleCallback env code st).dirCalls = 0) := by
  have hif : ¬ (code.length < 10 ∨ st.length < 10) := by omega
  refine ⟨?_, ?_, ?_, ?_⟩
  · intro e states' hvs
    constructor <;> simp [HandleCallback, hif, hvs]
  · intro sid states' s sessions' msg hvs hgs hex
    constructor <;> simp [HandleCallback, hif, hvs, hgs, hex]
  · intro sid states' s sessions' pt msg hvs hgs hex hid
    constructor <;> simp [HandleCallback, hif, hvs, hgs, hex, hid]
  · intro habs
    have hvs : ValidateState env.states env.now st = (.error .invalidState, env.states) := by
      simp [ValidateState, habs]
    constructor <;> simp [HandleCallback, hif, hvs]

/-- Environment of the C6 witness: an empty state store, so every state is
unknown; the oracles would succeed if reached. -/
def c6Env : CallbackEnv :=
  { states := fun _ => none
    sessions := fun _ => none
    jwt := { accessSecret := "sa", idSecret := "si", refreshSecret := "sr" }
    now := 0
    exchange := fun _ _ => .ok { idToken := "pid" }
    validateIDToken := fun _ =>
      .ok { userID := "sub-1", email := "a@b.com", name := "A", picture := "" }
    upsertUser := fun _ e n p => .ok { id := "u-new", email := e, name := n, picture := p } }

/-- Witness for C6: an unknown state yields InvalidState and zero user
directory calls. -/
theorem c6_witness :
    (HandleCallback c6Env "authcode-xyz" "state-nonexist").result
        = .failure (.stateErr .invalidState) ∧
    (HandleCallback c6Env "authcode-xyz" "state-nonexist").dirCalls = 0 :=
  (c6_failures_abort_without_directory c6Env "authcode-xyz" "state-nonexist"
    (by decide) (by decide)).2.2.2 rfl

/-- Concrete 32 random state bytes (all zero) for the C9 counterexample. -/
def c9StateBytes : List (Fin 256) := List.replicate 32 0

set_option maxRecDepth 20000 in
/-- Counterexample to C9: Login called with the redirect uri
"https://app/cb" returns an authURL in which that caller-supplied value does
not occur at all - the Go code overwrites its redirectURI argument with the
hardcoded callback URL before building the authorization URL. -/
theorem c9_counterexample :
    strContains
      (Login (fun _ => none) (fun _ => none) 3600 300 0 "sess-c9" c9StateBytes
        "https://app/cb").1.authURL
      "https://app/cb" = false := by
  rfl

set_option maxRecDepth 20000 in
/-- C9 amended: the authURL embeds the hardcoded redirect uri (the
caller-supplied argument is ignored) together with the client id, the scope,
response_type=code and a state parameter equal to the returned state; that
state is the 64-character hex encoding of the 32 random bytes, every one of
its characters is a hex digit, and the state store binds it to the newly
created session. -/
theorem c9_amended_login_url (sessions : SessionMap) (states : StateMap)
    (sessionTTL stateTTL now : Int) (newSessionID : String)
    (stateRandom : List (Fin 256)) (redirectURI : String)
    (out : OIDCLoginResponse × SessionMap × StateMap)
    (hout : Login sessions states sessionTTL stateTTL now newSessionID
        stateRandom redirectURI = out)
    (hlen : stateRandom.length = 32) :
    out.1.authURL
      = "https://accounts.google.com/o/oauth2/v2/auth"
        ++ "?client_id=" ++ googleClientID
        ++ "&redirect_uri=" ++ callbackRedirectURI
        ++ "&scope=openid+profile+email"
        ++ "&response_type=code"
        ++ "&state=" ++ out.1.state ∧
    strContains out.1.authURL ("&redirect_uri=" ++ callbackRedirectURI) = true ∧
    strContains out.1.authURL "&response_type=code" = true ∧
    strContains out.1.authURL ("?client_id=" ++ googleClientID) = true ∧
    strContains out.1.authURL "&scope=openid+profile+email" = true ∧
    out.1.state.length = 64 ∧
    (∀ c ∈ out.1.state.data, c ∈ hextable) ∧
    out.1.sessionID = newSessionID ∧
    out.2.2 out.1.state
      = some { sessionID := newSessionID, expiresAt := now + stateTTL } ∧
    out.2.1 newSessionID
      = some { sessionID := newSessionID, userID := "", createdAt := now,
               expiresAt := now + sessionTTL, ipAddress := "", userAgent := "" } := by
  subst hout
  have hURL : (Login sessions states sessionTTL stateTTL now newSessionID
        stateRandom redirectURI).1.authURL
      = ("https://accounts.google.com/o/oauth2/v2/auth"
          ++ "?client_id=" ++ googleClientID
          ++ "&redirect_uri=" ++ callbackRedirectURI
          ++ "&scope=openid+profile+email"
          ++ "&response_type=code"
          ++ "&state=") ++ hexEncode stateRandom := rfl
  refine ⟨?_, ?_, ?_, ?_, ?_, ?_, ?_, ?_, ?_, ?_⟩
  · rfl
  · rw [hURL]; exact strContains_append_left _ _ _ (by rfl)
  · rw [hURL]; exact strContains_append_left _ _ _ (by rfl)
  · rw [hURL]; exact strContains_append_left _ _ _ (by rfl)
  · rw [hURL]; exact strContains_append_left _ _ _ (by rfl)
  · have h6 := hexEncode_length stateRandom
    rw [hlen] at h6
    exact h6
  · exact hexEncode_chars stateRandom
  · rfl
  · simp [Login, GenerateState, CreateSession]
  · simp [Login, CreateSession]

/-- Witness for the amended C9 at concrete stores and random bytes. -/
theorem c9_witness :
    (Login (fun _ => none) (fun _ => none) 3600 300 0 "sess-c9" c9StateBytes
      "https://app/cb").1.state.length = 64 := by
  have h := c9_amended_login_url (fun _ => none) (fun _ => none) 3600 300 0 "sess-c9"
    c9StateBytes "https://app/cb" _ rfl (by decide)
  exact h.2.2.2.2.2.1

/-- A live 64-character state token stored in the C10 environment. -/
def c10State : String :=
  "0000000000000000000000000000000000000000000000000000000000000000"

/-- Environment of the C10 theorem: a live state bound to a live session and
oracles that all succeed, so that the whole flow would complete were it
reached. -/
def c10Env : CallbackEnv :=
  { states := fun t => if t = c10State
      then some { sessionID := "sess-10", expiresAt := 1000 } else none
    sessions := fun t => if t = "sess-10"
      then some { sessionID := "sess-10", userID := "", createdAt := 0,
                  expiresAt := 1000, ipAddress := "", userAgent := "" }
      else none
    jwt := { accessSecret := "sa", idSecret := "si", refreshSecret := "sr" }
    now := 0
    exchange := fun _ _ => .ok { idToken := "provider-id-token" }
    validateIDToken := fun _ =>
      .ok { userID := "sub-1", email := "a@b.com", name := "A", picture := "" }
    upsertUser := fun _ e n p => .ok { id := "u-new", email := e, name := n, picture := p } }

/-- C10: HandleCallback is not total over short string arguments: with the
authorization code "abc" (shorter than 10 bytes) and a live valid state it
panics on the logging slice code[:10] before any validation, although the
identical call with a 10-byte code completes successfully in the same
environment. -/
theorem c10_short_code_panics :
    (HandleCallback c10Env "abc" c10State).result = .panicked ∧
    (HandleCallback c10Env "authcode-x" c10State).result.isSuccess = true :=
  ⟨rfl, rfl⟩

end GoPractice
